import Mathlib

/-!
Shallow embedding of the per-guild music queue engine from
`src/cogs/music/music_player.py` (class `MusicPlayer`), together with the
external collaborators it touches (voice sink, notification channel).

Modelling conventions:
  * Python object mutation becomes explicit state passing on `MusicPlayer`.
  * A Python call that may raise returns `MusicPlayer × Except PyErr α`:
    the first component is the state after all side effects that happened
    before the raise (Python side effects persist across an exception).
  * Wall-clock time (`time.time()`) is an explicit `now : Int` parameter.
  * `random.shuffle` is modelled by passing the permuted tail explicitly;
    theorems assume it is a permutation of the original tail.
  * The external sink (`discord.VoiceClient`) is a small record of its
    observable flags; whether `voice_client.play` raises
    `discord.ClientException`, and whether `queue.get_source()` raises, are
    oracles (`clientOk`, `srcOk`) passed to the functions that call them.
  * `channel.send` appends to `sentMessages`; `bot.loop.create_task(_after e)`
    increments the ghost counter `pendingAfter`; `MusicData.close` on the head
    additionally appends the closed entry to the ghost log `closedLog`.
-/

/-- Python exception kinds raised by the code paths we embed. -/
inductive PyErr where
  | overflowError
  | indexError
  | valueError
  | nameError
  | sourceError
  deriving Repr, DecidableEq

/-- Modelled from the spec: `MusicData` (the track entry class) is not under
`src/`; per spec §3 a track entry has identity (title, source URL, ...), a
"started" transition, a "stopped" transition and a release (`close`)
operation freeing its stream. We keep the identity fields the claims need
and two flags for the transition state. -/
structure MusicData where
  title : String
  url : String
  playing : Bool
  closed : Bool
  deriving Repr, DecidableEq

/-- Modelled from the spec: the "started" transition of a track entry. -/
def MusicData.started (m : MusicData) : MusicData := { m with playing := true }

/-- Modelled from the spec: the "stopped" transition of a track entry. -/
def MusicData.stopped (m : MusicData) : MusicData := { m with playing := false }

/-- Modelled from the spec: the release operation freeing the stream. -/
def MusicData.close (m : MusicData) : MusicData := { m with closed := true }

/-- Observable flags of the external voice sink (`discord.VoiceClient`):
`is_playing()`, `is_paused()`, and whether a completion callback was
registered by the last `play` call. -/
structure VoiceClient where
  playing : Bool
  paused : Bool
  afterRegistered : Bool
  deriving Repr, DecidableEq

/-- State of `MusicPlayer` (`src/cogs/music/music_player.py`, lines 19-31),
plus the observable state of its collaborators:
`queues`, `length`, `_loop`, `before` are the source's own attributes;
`voice_client` is the sink's observable state; `sentMessages` records
`channel.send` calls; `pendingAfter` counts `create_task(self._after ..)`
calls; `closedLog` records which entries had `close()` called on them. -/
structure MusicPlayer where
  queues : List MusicData
  length : Int
  _loop : Bool
  before : Int
  voice_client : VoiceClient
  sentMessages : List String
  pendingAfter : Nat
  closedLog : List MusicData
  deriving Repr, DecidableEq

/-- The capacity constant `MusicPlayer.MAX` (line 17). -/
def MusicPlayer.MAX : Int := 800

/-- The state after `__init__` (lines 19-31): empty queue, length 0,
loop off, `before = 0`. -/
def initPlayer : MusicPlayer :=
  { queues := []
    length := 0
    _loop := false
    before := 0
    voice_client := { playing := false, paused := false, afterRegistered := false }
    sentMessages := []
    pendingAfter := 0
    closedLog := [] }

/-- `add_queue` (lines 33-39): raises `OverflowError` when `length == MAX`,
otherwise appends to the tail and increments the counter. (The
`music._make_get_source` assignment on line 34 mutates only the track's
stream factory, which has no observable field here.) -/
def MusicPlayer.add_queue (s : MusicPlayer) (music : MusicData) :
    MusicPlayer × Except PyErr Unit :=
  if s.length = MusicPlayer.MAX then
    (s, Except.error PyErr.overflowError)
  else
    ({ s with queues := s.queues ++ [music], length := s.length + 1 },
     Except.ok ())

/-- Argument of `remove_queue`: `Union[int, MusicData]` (line 41). -/
inductive RemoveArg where
  | byIndex (i : Int)
  | byValue (m : MusicData)
  deriving Repr, DecidableEq

/-- Python `del l[i]` index semantics: valid for `-len ≤ i < len`, negative
indices count from the end; otherwise `IndexError`. -/
def pyDelIndex (l : List MusicData) (i : Int) : Option (List MusicData) :=
  if 0 ≤ i ∧ i < (l.length : Int) then some (l.eraseIdx i.toNat)
  else if -(l.length : Int) ≤ i ∧ i < 0 then
    some (l.eraseIdx (i + (l.length : Int)).toNat)
  else none

/-- Python `l.remove(x)`: deletes the first occurrence of `x`, raises
`ValueError` when `x` is absent. -/
def pyListRemove (l : List MusicData) (x : MusicData) : Option (List MusicData) :=
  if x ∈ l then some (l.erase x) else none

/-- `remove_queue` (lines 41-46): deletes by index or by value; the
`self.length -= 1` on line 46 runs only when the deletion did not raise. -/
def MusicPlayer.remove_queue (s : MusicPlayer) (arg : RemoveArg) :
    MusicPlayer × Except PyErr Unit :=
  match arg with
  | RemoveArg.byIndex i =>
    match pyDelIndex s.queues i with
    | some q => ({ s with queues := q, length := s.length - 1 }, Except.ok ())
    | none => (s, Except.error PyErr.indexError)
  | RemoveArg.byValue m =>
    match pyListRemove s.queues m with
    | some q => ({ s with queues := q, length := s.length - 1 }, Except.ok ())
    | none => (s, Except.error PyErr.valueError)

/-- `read_queue` (lines 48-49): `self.queues[index]` with Python indexing. -/
def MusicPlayer.read_queue (s : MusicPlayer) (i : Int) : Option MusicData :=
  if 0 ≤ i ∧ i < (s.queues.length : Int) then s.queues.get? i.toNat
  else if -(s.queues.length : Int) ≤ i ∧ i < 0 then
    s.queues.get? (i + (s.queues.length : Int)).toNat
  else none

/-- `play` (lines 69-85). Guard: queue non-empty and sink not playing.
Then, in source order: `queue.started()` mutates the head, `self.before = 0`,
and only then the `try` block runs `voice_client.play(await queue.get_source(), after=...)`.
`srcOk = false` means `get_source` raises (a non-`ClientException`, which the
`except discord.ClientException` clause does not catch, so it propagates);
`clientOk = false` means `voice_client.play` raises `discord.ClientException`,
which is caught and turned into `return False`. On success the sink is
playing with the completion callback registered and `play` returns `True`. -/
def MusicPlayer.play (s : MusicPlayer) (srcOk clientOk : Bool) :
    MusicPlayer × Except PyErr Bool :=
  match s.queues with
  | [] => (s, Except.ok false)
  | t :: rest =>
    if s.voice_client.playing then (s, Except.ok false)
    else
      let s1 : MusicPlayer :=
        { s with queues := MusicData.started t :: rest, before := 0 }
      if srcOk = false then (s1, Except.error PyErr.sourceError)
      else if clientOk = false then (s1, Except.ok false)
      else
        ({ s1 with voice_client :=
            { s1.voice_client with playing := true, afterRegistered := true } },
         Except.ok true)

/-- `clear` (lines 87-88): `self.queues = self.queues[:1]`. Note the source
does NOT touch `self.length` here. -/
def MusicPlayer.clear (s : MusicPlayer) : MusicPlayer :=
  { s with queues := s.queues.take 1 }

/-- `skip` (lines 90-92): `voice_client.stop()` (sink stops outputting; its
completion callback will fire asynchronously) and `self.before = time()`. -/
def MusicPlayer.skip (s : MusicPlayer) (now : Int) : MusicPlayer :=
  { s with
    voice_client := { s.voice_client with playing := false, paused := false }
    before := now }

/-- `pause` (lines 94-104). Both branches reference the local name `queue`,
which is never bound anywhere in this method, so after toggling the sink
(`voice_client.resume()` resp. `voice_client.pause()`) the very next
statement (`queue.started()` resp. `queue.stopped()`) raises `NameError`;
the statements after it (`self.before = 0` / `self.before = time` / the
`return`) never run. -/
def MusicPlayer.pause (s : MusicPlayer) : MusicPlayer × Except PyErr Bool :=
  if s.voice_client.paused then
    ({ s with voice_client := { s.voice_client with paused := false, playing := true } },
     Except.error PyErr.nameError)
  else
    ({ s with voice_client := { s.voice_client with paused := true, playing := false } },
     Except.error PyErr.nameError)

/-- `loop` (lines 106-108): flips `_loop` and returns the new value. -/
def MusicPlayer.loop (s : MusicPlayer) : MusicPlayer × Bool :=
  ({ s with _loop := !s._loop }, !s._loop)

/-- `shuffle` (lines 110-114): when `self.length > 1` (the counter, not the
list length), the tail `queues[1:]` is permuted in place by `random.shuffle`
and the queue becomes `queues[:1] + tail`. The permuted tail `tl` is passed
explicitly; theorems assume `tl` is a permutation of the original tail. -/
def MusicPlayer.shuffle (s : MusicPlayer) (tl : List MusicData) : MusicPlayer :=
  if 1 < s.length then { s with queues := s.queues.take 1 ++ tl } else s

/-- `check_timeout` (lines 116-120): `False` when `before == 0`, else
`time() - self.before > t`. -/
def MusicPlayer.check_timeout (s : MusicPlayer) (now t : Int) : Bool :=
  if s.before = 0 then false else decide (now - s.before > t)

/-- The escaping `.replace("@", "＠")` applied on line 63-65 to the error
message. The pattern is the single character `@`, so it is a character map. -/
def escapeMentions (msg : String) : String :=
  String.mk (msg.toList.map (fun c => if c = '@' then '＠' else c))

/-- The message `channel.send` receives in `_after`'s error path (lines
62-66). The source string lacks the `f` prefix, so `\x7bself.queues[0].title\x7d`
is literal text, not an interpolation; the `.replace("@", "＠")` is applied
to that literal. -/
def afterErrorMessage : String :=
  escapeMentions "何らかのエラーにより`\x7bself.queues[0].title\x7d`が再生ができませんでした。"

/-- `_after` (lines 51-67), the completion callback. Steps, in source order:
`self.queues[0].close()` (raises `IndexError` on an empty queue); the sink
error `e` is only printed; when `_loop` is off, `self.remove_queue(0)`;
then `await self.play()` inside a `try`: if it raises, the error message is
sent to the channel and one new `_after(None)` task is scheduled
(`pendingAfter` incremented). The sink oracles are threaded through to the
inner `play` call. -/
def MusicPlayer.afterCb (s : MusicPlayer) (srcOk clientOk : Bool) :
    MusicPlayer × Except PyErr Unit :=
  match s.queues with
  | [] => (s, Except.error PyErr.indexError)
  | t :: rest =>
    let s1 : MusicPlayer :=
      { s with queues := MusicData.close t :: rest
               closedLog := s.closedLog ++ [t] }
    let s2 : MusicPlayer :=
      if s1._loop then s1 else (s1.remove_queue (RemoveArg.byIndex 0)).1
    match s2.play srcOk clientOk with
    | (s3, Except.ok _) => (s3, Except.ok ())
    | (s3, Except.error _) =>
      ({ s3 with sentMessages := s3.sentMessages ++ [afterErrorMessage]
                 pendingAfter := s3.pendingAfter + 1 },
       Except.ok ())

/-- Driver for claim C2: enqueue a list of tracks in order via `add_queue`,
stopping at the first failure; the Bool reports whether all succeeded. -/
def enqueueAll : MusicPlayer → List MusicData → MusicPlayer × Bool
  | s, [] => (s, true)
  | s, t :: ts =>
    match s.add_queue t with
    | (s1, Except.ok _) => enqueueAll s1 ts
    | (s1, Except.error _) => (s1, false)

/-- Sample track entries used by concrete witnesses and counterexamples. -/
def trackA : MusicData :=
  { title := "Song1", url := "https://example.com/1", playing := false, closed := false }

def trackB : MusicData :=
  { title := "Song2", url := "https://example.com/2", playing := false, closed := false }

def trackC : MusicData :=
  { title := "Song3", url := "https://example.com/3", playing := false, closed := false }

/-! ## Claim theorems -/

def sC1 : MusicPlayer :=
  { initPlayer with queues := [trackA, trackB], length := 2 }

/-- Claim C1 (code bug): the length counter is claimed to equal the number of
entries after every mutation, but `clear` (line 88) reassigns
`self.queues = self.queues[:1]` without touching `self.length`: starting from
a consistent 2-entry state, after `clear` the sequence has 1 entry while the
counter still reads 2, so the invariant is broken. -/
theorem C1_clear_breaks_length_invariant :
    sC1.length = (sC1.queues.length : Int) ∧
    sC1.clear.queues.length = 1 ∧
    sC1.clear.length = 2 ∧
    sC1.clear.length ≠ (sC1.clear.queues.length : Int) := by decide

def sC8 : MusicPlayer :=
  { initPlayer with queues := [trackA, trackB, trackC], length := 3 }

/-- Claim C8 (code bug): `clear` on a 3-entry queue does truncate the sequence
to exactly the original head and discards the rest, but the length counter is
NOT recomputed: it still reads 3 instead of the claimed 1. -/
theorem C8_clear_keeps_head_but_stale_length :
    sC8.clear.queues = [trackA] ∧
    sC8.clear.length = 3 ∧
    sC8.clear.length ≠ 1 := by decide

/-- Claim C5 (code bug): `pause` cannot perform the claimed toggle. In both
branches it references the unbound local name `queue` (lines 97 and 102), so
after toggling the sink it raises `NameError`; the head entry is never marked
started/stopped, `before` is never updated, and no Bool is returned. -/
theorem C5_pause_raises_name_error (s : MusicPlayer) :
    s.pause.2 = Except.error PyErr.nameError ∧
    s.pause.1.queues = s.queues ∧
    s.pause.1.before = s.before ∧
    s.pause.1.voice_client.paused = !s.voice_client.paused := by
  by_cases h : s.voice_client.paused <;> simp [MusicPlayer.pause, h]

def sC6 : MusicPlayer := { initPlayer with before := 1 }

/-- Claim C6 counterexample: with a nonzero timestamp and exactly 300 seconds
elapsed (`now = 301`, `before = 1`), at least 300 seconds have elapsed, yet
`check_timeout 301 300` returns `false` — the code uses strict `>`, so the
claim's "true once at least 300 seconds have elapsed" fails at the boundary. -/
theorem C6_boundary_counterexample :
    sC6.before ≠ 0 ∧
    (301 : Int) - sC6.before ≥ 300 ∧
    sC6.check_timeout 301 300 = false := by decide

/-- Claim C6 (amended): `check_timeout` returns `false` whenever the recorded
timestamp is 0, regardless of the current time; when the timestamp is nonzero
it returns `true` exactly when STRICTLY more than `t` seconds have elapsed
(so at exactly `t` elapsed seconds it still returns `false`). -/
theorem C6_check_timeout_strict (s : MusicPlayer) (now t : Int) :
    (s.before = 0 → s.check_timeout now t = false) ∧
    (s.before ≠ 0 → (s.check_timeout now t = true ↔ now - s.before > t)) := by
  refine ⟨fun h => ?_, fun h => ?_⟩ <;> simp [MusicPlayer.check_timeout, h]

/-- Witness for C6: concrete evaluation through the amended theorem
(`before = 1`, `now = 600`, 599 seconds elapsed, strictly above 300). -/
theorem C6_check_timeout_strict_witness :
    sC6.check_timeout 600 300 = true :=
  ((C6_check_timeout_strict sC6 600 300).2 (by decide)).mpr (by decide)

/-- Claim C7 (confirmed): provided the permuted tail really is a permutation
of `queues[1:]` (which `random.shuffle` guarantees), `shuffle` never changes
the head (`head?` preserved), the tail stays a permutation of the original
tail, and when the length counter is not greater than 1 the state is
returned unchanged. -/
theorem C7_shuffle_pins_head (s : MusicPlayer) (tl : List MusicData)
    (hperm : tl.Perm (s.queues.drop 1)) :
    (s.shuffle tl).queues.head? = s.queues.head? ∧
    ((s.shuffle tl).queues.drop 1).Perm (s.queues.drop 1) ∧
    (¬ 1 < s.length → s.shuffle tl = s) := by
  by_cases h : 1 < s.length
  · cases hq : s.queues with
    | nil =>
      have htl : tl = [] := by
        have := hperm.length_eq
        simpa [hq, List.length_eq_zero] using this
      simp [MusicPlayer.shuffle, h, hq, htl]
    | cons a r =>
      refine ⟨by simp [MusicPlayer.shuffle, h, hq], ?_, fun hc => absurd h hc⟩
      simp only [MusicPlayer.shuffle, if_pos h, hq]
      simpa [hq] using hperm
  · simp [MusicPlayer.shuffle, h]

def sC7 : MusicPlayer :=
  { initPlayer with queues := [trackA, trackB, trackC], length := 3 }

/-- Witness for C7: a concrete 3-entry queue whose tail is reversed. -/
theorem C7_shuffle_pins_head_witness :
    (sC7.shuffle [trackC, trackB]).queues.head? = sC7.queues.head? ∧
    ((sC7.shuffle [trackC, trackB]).queues.drop 1).Perm (sC7.queues.drop 1) ∧
    (¬ 1 < sC7.length → sC7.shuffle [trackC, trackB] = sC7) :=
  C7_shuffle_pins_head sC7 [trackC, trackB] (by decide)

/-- Helper for C2: from any state whose counter is consistent and which has
room for all of `ts`, `enqueueAll` succeeds, appends `ts` in order at the
tail, and raises the counter by `ts.length`. -/
theorem enqueueAll_below_capacity (ts : List MusicData) :
    ∀ s : MusicPlayer, s.length = (s.queues.length : Int) →
    s.queues.length + ts.length ≤ 800 →
    (enqueueAll s ts).1.queues = s.queues ++ ts ∧
    (enqueueAll s ts).1.length = s.length + (ts.length : Int) ∧
    (enqueueAll s ts).2 = true := by
  induction ts with
  | nil => intro s h1 h2; simp [enqueueAll]
  | cons t ts ih =>
    intro s h1 h2
    have hne : ¬ s.length = MusicPlayer.MAX := by
      rw [h1]; simp only [MusicPlayer.MAX]
      simp only [List.length_cons] at h2
      omega
    simp only [enqueueAll, MusicPlayer.add_queue, if_neg hne]
    obtain ⟨ha, hb, hc⟩ :=
      ih { s with queues := s.queues ++ [t], length := s.length + 1 }
        (by simp [h1])
        (by simp only [List.length_append, List.length_cons, List.length_nil] at h2 ⊢; omega)
    refine ⟨by simpa using ha, ?_, hc⟩
    rw [hb]
    simp only [List.length_cons]
    push_cast
    ring

/-- Claim C2 (confirmed): from the freshly initialised player, enqueueing a
list of N ≤ 800 tracks succeeds, the queue is exactly those tracks in order
(each appended at the tail) and the counter equals N; when N = 800, one more
`add_queue` fails with `OverflowError` and leaves both the contents and the
counter (still 800) unchanged. -/
theorem C2_enqueue_capacity (ts : List MusicData) (hlen : ts.length ≤ 800) :
    (enqueueAll initPlayer ts).2 = true ∧
    (enqueueAll initPlayer ts).1.queues = ts ∧
    (enqueueAll initPlayer ts).1.length = (ts.length : Int) ∧
    (ts.length = 800 → ∀ t : MusicData,
      ((enqueueAll initPlayer ts).1.add_queue t).2 = Except.error PyErr.overflowError ∧
      ((enqueueAll initPlayer ts).1.add_queue t).1 = (enqueueAll initPlayer ts).1) := by
  obtain ⟨ha, hb, hc⟩ :=
    enqueueAll_below_capacity ts initPlayer (by simp [initPlayer])
      (by simpa [initPlayer] using hlen)
  refine ⟨hc, by simpa [initPlayer] using ha, by simpa [initPlayer] using hb,
    fun h800 t => ?_⟩
  have hfull : (enqueueAll initPlayer ts).1.length = MusicPlayer.MAX := by
    rw [hb]
    simp [initPlayer, h800, MusicPlayer.MAX]
  constructor <;> simp [MusicPlayer.add_queue, hfull]

/-- Witness for C2: enqueueing the single track `trackA`. -/
theorem C2_enqueue_capacity_witness :
    (enqueueAll initPlayer [trackA]).2 = true ∧
    (enqueueAll initPlayer [trackA]).1.queues = [trackA] ∧
    (enqueueAll initPlayer [trackA]).1.length = (([trackA] : List MusicData).length : Int) ∧
    (([trackA] : List MusicData).length = 800 → ∀ t : MusicData,
      ((enqueueAll initPlayer [trackA]).1.add_queue t).2 = Except.error PyErr.overflowError ∧
      ((enqueueAll initPlayer [trackA]).1.add_queue t).1 = (enqueueAll initPlayer [trackA]).1) :=
  C2_enqueue_capacity [trackA] (by decide)

/-- Claim C10 (confirmed): when `remove_queue` raises — integer index out of
Python's valid range, or entry not present in the queue — the returned state
equals the input state (queue contents AND length counter unchanged), because
`self.length -= 1` runs only after a successful deletion. Failure is exactly:
out-of-range index for `byIndex`, absence for `byValue`. -/
theorem C10_remove_failure_leaves_state (s : MusicPlayer) (arg : RemoveArg) :
    (∀ e : PyErr, (s.remove_queue arg).2 = Except.error e →
      (s.remove_queue arg).1 = s) ∧
    (∀ i, arg = RemoveArg.byIndex i →
      ((∃ e, (s.remove_queue arg).2 = Except.error e) ↔
        ¬ (-(s.queues.length : Int) ≤ i ∧ i < (s.queues.length : Int)))) ∧
    (∀ m, arg = RemoveArg.byValue m →
      ((∃ e, (s.remove_queue arg).2 = Except.error e) ↔ m ∉ s.queues)) := by
  refine ⟨?_, ?_, ?_⟩
  · intro e h
    cases arg with
    | byIndex i =>
      simp only [MusicPlayer.remove_queue] at h ⊢
      cases hd : pyDelIndex s.queues i <;> simp [hd] at h ⊢
    | byValue m =>
      simp only [MusicPlayer.remove_queue] at h ⊢
      cases hd : pyListRemove s.queues m <;> simp [hd] at h ⊢
  · rintro i rfl
    simp only [MusicPlayer.remove_queue]
    unfold pyDelIndex
    by_cases h1 : 0 ≤ i ∧ i < (s.queues.length : Int)
    · simp [h1]; omega
    · by_cases h2 : -(s.queues.length : Int) ≤ i ∧ i < 0
      · simp [h1, h2]; omega
      · simp [h1, h2]; omega
  · rintro m rfl
    simp only [MusicPlayer.remove_queue]
    unfold pyListRemove
    by_cases hm : m ∈ s.queues <;> simp [hm]

def sC10 : MusicPlayer := { initPlayer with queues := [trackA], length := 1 }

/-- Witness for C10: removing index 5 from a 1-entry queue fails and leaves
the state unchanged. -/
theorem C10_remove_failure_leaves_state_witness :
    (sC10.remove_queue (RemoveArg.byIndex 5)).1 = sC10 :=
  (C10_remove_failure_leaves_state sC10 (RemoveArg.byIndex 5)).1
    PyErr.indexError (by rfl)

/-- Helper: Python `del l[0]` on a non-empty list removes the head. -/
theorem pyDelIndex_zero (a : MusicData) (l : List MusicData) :
    pyDelIndex (a :: l) 0 = some l := by
  have h : (0:Int) ≤ 0 ∧ (0:Int) < ((a :: l).length : Int) :=
    ⟨le_refl 0, by exact_mod_cast Nat.succ_pos l.length⟩
  simp only [pyDelIndex, if_pos h, Int.toNat_zero, List.eraseIdx_cons_zero]

/-- Claim C3 (confirmed): on a non-empty queue with the sink idle (as at
natural completion) and both collaborators succeeding, the completion
callback releases the head entry's stream (it is appended to the close log);
with loop OFF it removes the head (counter decremented) and re-invokes
`play`, so when further entries exist the new head is marked started and the
sink is playing; with loop ON the head entry is never removed — the same
(closed, re-started) head track is replayed. -/
theorem C3_completion_callback (s : MusicPlayer) (t : MusicData)
    (rest : List MusicData) (hq : s.queues = t :: rest)
    (hp : s.voice_client.playing = false) :
    (s._loop = false →
      ((s.afterCb true true).1.length = s.length - 1 ∧
       (s.afterCb true true).1.closedLog = s.closedLog ++ [t] ∧
       (rest = [] → (s.afterCb true true).1.queues = []) ∧
       (∀ r rs, rest = r :: rs →
         (s.afterCb true true).1.queues = MusicData.started r :: rs ∧
         (s.afterCb true true).1.voice_client.playing = true))) ∧
    (s._loop = true →
      ((s.afterCb true true).1.queues =
         MusicData.started (MusicData.close t) :: rest ∧
       (s.afterCb true true).1.length = s.length ∧
       (s.afterCb true true).1.closedLog = s.closedLog ++ [t] ∧
       (s.afterCb true true).1.voice_client.playing = true)) := by
  obtain ⟨q, len, lp, bef, ⟨vp, vpa, var⟩, msgs, pend, clog⟩ := s
  simp only at hq hp
  subst hq
  subst hp
  cases lp with
  | false =>
    cases rest with
    | nil =>
      simp [MusicPlayer.afterCb, MusicPlayer.remove_queue, pyDelIndex_zero,
            MusicPlayer.play]
    | cons r rs =>
      simp [MusicPlayer.afterCb, MusicPlayer.remove_queue, pyDelIndex_zero,
            MusicPlayer.play]
  | true =>
    simp [MusicPlayer.afterCb, MusicPlayer.play]

def sC3 : MusicPlayer :=
  { initPlayer with queues := [trackA, trackB], length := 2 }

/-- Witness for C3: two-entry queue `[trackA, trackB]`, loop off: the head is
removed, the counter drops to 1, and `trackB` starts playing. -/
theorem C3_completion_callback_witness :
    (sC3.afterCb true true).1.length = sC3.length - 1 ∧
    (sC3.afterCb true true).1.queues = [MusicData.started trackB] ∧
    (sC3.afterCb true true).1.voice_client.playing = true :=
  ⟨((C3_completion_callback sC3 trackA [trackB] rfl rfl).1 rfl).1,
   (((C3_completion_callback sC3 trackA [trackB] rfl rfl).1 rfl).2.2.2 trackB [] rfl).1,
   (((C3_completion_callback sC3 trackA [trackB] rfl rfl).1 rfl).2.2.2 trackB [] rfl).2⟩

def sC4 : MusicPlayer := { initPlayer with queues := [trackA], length := 1 }

/-- Claim C4 counterexample: one queued, not-yet-started track, idle sink,
sink rejects with a client-level error: `play` returns `false` but HAS
mutated the queue — `queue.started()` and `self.before = 0` run before the
`try` block, so the head entry in the resulting queue differs from the
original. -/
theorem C4_client_error_still_mutates :
    (sC4.play true false).2 = Except.ok false ∧
    (sC4.play true false).1.queues ≠ sC4.queues :=
  ⟨rfl, by decide⟩

/-- Claim C4 (amended): `play` returns `false` with no mutation at all when
the queue is empty or the sink is already playing. Otherwise it first marks
the head entry started and resets `before` to 0, and only then asks the
sink: on a client-level rejection it returns `false` with queue membership,
order and counter unchanged (but the head already marked started and the
timestamp reset); on success it additionally leaves the sink playing with
the completion callback registered and returns `true`. -/
theorem C4_play_behavior (s : MusicPlayer) (clientOk : Bool) :
    (s.queues = [] ∨ s.voice_client.playing = true →
      s.play true clientOk = (s, Except.ok false)) ∧
    (∀ t rest, s.queues = t :: rest → s.voice_client.playing = false →
      ((s.play true clientOk).1.queues = MusicData.started t :: rest ∧
       (s.play true clientOk).1.before = 0 ∧
       (s.play true clientOk).1.length = s.length ∧
       (clientOk = false →
         (s.play true clientOk).2 = Except.ok false ∧
         (s.play true clientOk).1.voice_client = s.voice_client) ∧
       (clientOk = true →
         (s.play true clientOk).2 = Except.ok true ∧
         (s.play true clientOk).1.voice_client.playing = true ∧
         (s.play true clientOk).1.voice_client.afterRegistered = true))) := by
  constructor
  · rintro (hq | hp)
    · simp [MusicPlayer.play, hq]
    · cases hq : s.queues with
      | nil => simp [MusicPlayer.play, hq]
      | cons t rest => simp [MusicPlayer.play, hq, hp]
  · intro t rest hq hp
    cases clientOk <;> simp [MusicPlayer.play, hq, hp]

/-- Witness for C4: successful start on the one-entry queue `[trackA]`. -/
theorem C4_play_behavior_witness :
    (sC4.play true true).1.queues = MusicData.started trackA :: [] ∧
    (sC4.play true true).2 = Except.ok true :=
  ⟨((C4_play_behavior sC4 true).2 trackA [] rfl rfl).1,
   (((C4_play_behavior sC4 true).2 trackA [] rfl rfl).2.2.2.2 rfl).1⟩

def sC9 : MusicPlayer :=
  { initPlayer with queues := [trackA, trackB], length := 2 }

/-- Claim C9 (code bug): when re-invoking `play` from the completion callback
raises (source resolution fails here), the engine sends exactly one channel
message with mention-trigger characters escaped (no `@` remains) and
schedules the completion handler exactly once more; but the message does NOT
name the failed track's title: the source string lacks the `f` prefix, so
the sent text is the literal template and the title of the track at queue
position 0 at send time (`trackB`, "Song2") does not occur in it. -/
theorem C9_error_message_lacks_title :
    (sC9.afterCb false true).1.sentMessages = [afterErrorMessage] ∧
    (sC9.afterCb false true).1.pendingAfter = 1 ∧
    (sC9.afterCb false true).1.queues.head? = some (MusicData.started trackB) ∧
    afterErrorMessage.toList.all (fun c => c ≠ '@') = true ∧
    ¬ (trackB.title.toList <:+: afterErrorMessage.toList) := by
  refine ⟨rfl, rfl, rfl, by decide, by decide⟩
